import Mathlib

/-!
Verification of the in-page content-override mechanism of the marketing
site in src/index.tsx: the Content Store (the `content` record and its
accessors), the Edit Session Controller (`isEditMode`, `editingItem` and
the functions of the `App` component), and the Editor Dialog
(`EditModal`), embedded shallowly as pure functions over explicit state.
Event handlers become state-transition functions; a React render-plus-
effects pass after each handler is modelled explicitly, so the
`useEffect` reseeding of the dialog's scratch value is captured with its
dependency-array semantics.
-/

namespace HomePage

/-- Edit kind, from `type EditType = 'text' | 'image'` (src/index.tsx:11). -/
inductive EditType where
  | text
  | image
deriving DecidableEq, Repr

/-- An ActiveEdit, from `interface EditItem { id; value; type }`
(src/index.tsx:1094-1098). -/
structure EditItem where
  id : String
  value : String
  type : EditType
deriving DecidableEq, Repr

/-- The Content Store: `content : Record<string, string>`
(src/index.tsx:1102), modelled as a partial map from keys to override
values. -/
def Content : Type := String → Option String

/-- The initial empty store: `useState<Record<string, string>>({})`. -/
def Content.empty : Content := fun _ => none

/-- The JS object update `{...prev, [key]: value}` performed by
`updateContent` (src/index.tsx:1105-1107). -/
def Content.set (c : Content) (k v : String) : Content :=
  fun q => if q = k then some v else c q

/-- JS short-circuit `a || b` on strings: the empty string is falsy, so
it falls through to `b`. -/
def orElse (a b : String) : String :=
  if a = "" then b else a

/-- The resolved value of a key: `content[id] || defaultText`
(src/index.tsx:177, 213). A missing key falls back to the default, and so
does an override whose value is the empty string, because `||` treats
`""` as falsy. -/
def resolve (c : Content) (k dflt : String) : String :=
  match c k with
  | some v => orElse v dflt
  | none => dflt

/-- State owned by the `App` component (src/index.tsx:1101-1103). -/
structure AppState where
  isEditMode : Bool
  content : Content
  editingItem : Option EditItem

/-- `updateContent` (src/index.tsx:1105-1107): unconditional
insert-or-replace of the override, no validation. -/
def updateContent (a : AppState) (key value : String) : AppState :=
  { a with content := a.content.set key value }

/-- `resetContent` (src/index.tsx:1109-1113): `window.confirm` asks the
operator and `confirmed` is the answer; confirmed clears every override,
declined leaves the state untouched. -/
def resetContent (a : AppState) (confirmed : Bool) : AppState :=
  if confirmed then { a with content := Content.empty } else a

/-- `openEditor` (src/index.tsx:1115-1117): sets the ActiveEdit
unconditionally. Its body contains no edit-mode check. -/
def openEditor (a : AppState) (id initialValue : String) (t : EditType) : AppState :=
  { a with editingItem := some { id := id, value := initialValue, type := t } }

/-- `handleSaveEdit` (src/index.tsx:1119-1124): if an ActiveEdit exists,
store the value under its key via `updateContent` and clear the
ActiveEdit; otherwise do nothing. -/
def handleSaveEdit (a : AppState) (value : String) : AppState :=
  match a.editingItem with
  | some it => { updateContent a it.id value with editingItem := none }
  | none => a

/-- The modal's `onClose={() => setEditingItem(null)}` (src/index.tsx:1139),
shared by the Cancel button and the header X button. -/
def closeEditor (a : AppState) : AppState :=
  { a with editingItem := none }

/-- `toggleEditMode: () => setIsEditMode(!isEditMode)` (src/index.tsx:1129). -/
def toggleEditMode (a : AppState) : AppState :=
  { a with isEditMode := !a.isEditMode }

namespace EditableText

/-- `EditableText`'s `handleClick` (src/index.tsx:179-183): returns early
unless edit mode is on, otherwise calls `openEditor(id, currentText, 'text')`
where `currentText = content[id] || defaultText`. -/
def handleClick (a : AppState) (id defaultText : String) : AppState :=
  if a.isEditMode then openEditor a id (resolve a.content id defaultText) EditType.text
  else a

end EditableText

namespace EditableImage

/-- `EditableImage`'s `handleClick` (src/index.tsx:215-219): returns early
unless edit mode is on, otherwise calls `openEditor(id, currentSrc, 'image')`
where `currentSrc = content[id] || defaultSrc`. -/
def handleClick (a : AppState) (id defaultSrc : String) : AppState :=
  if a.isEditMode then openEditor a id (resolve a.content id defaultSrc) EditType.image
  else a

end EditableImage

/-- `EditModal`'s local state (src/index.tsx:57-62): the scratch `value`
plus the last-seen dependency pair of the reseeding `useEffect`, whose
dependency array is `[initialValue, isOpen]`. -/
structure ModalState where
  value : String
  lastInitialValue : String
  lastIsOpen : Bool
deriving DecidableEq, Repr

/-- One run of React effects after a render: the `useEffect` at
src/index.tsx:60-62 runs `setValue(initialValue)` exactly when the
dependency pair `[initialValue, isOpen]` changed since the previous
render, and records the pair it last saw. -/
def ModalState.sync (m : ModalState) (initialValue : String) (isOpen : Bool) : ModalState :=
  if initialValue = m.lastInitialValue ∧ isOpen = m.lastIsOpen then m
  else { value := initialValue, lastInitialValue := initialValue, lastIsOpen := isOpen }

/-- The `initialValue` prop the App passes to the modal on each render:
`initialValue={editingItem?.value || ''}` (src/index.tsx:1141). -/
def modalInitialValue (a : AppState) : String :=
  match a.editingItem with
  | some it => orElse it.value ""
  | none => ""

/-- The whole interactive system: the App state, the modal's local state
(the modal stays mounted while closed, so this state persists), and the
data-URI results of `FileReader` reads started by `handleFileChange`
(src/index.tsx:64-73) whose `onloadend` callback has not fired yet. -/
structure SystemState where
  app : AppState
  modal : ModalState
  pendingReads : List String

/-- The user and browser events that drive the system. Each constructor
names the handler it reaches in src/index.tsx — or the absence of one:
the backdrop div (src/index.tsx:77) has no `onClick`, and no keydown
listener is registered anywhere, so `overlayClick` and `pressEscape`
reach no handler at all. -/
inductive Event where
  | toggleMode
  | clickText (id defaultText : String)
  | clickImage (id defaultSrc : String)
  | typeScratch (v : String)
  | clickSave
  | clickCancel
  | clickCloseX
  | overlayClick
  | pressEscape
  | clickReset (confirmed : Bool)
  | selectFile (dataUri : String)
  | readCompletes (i : Nat)

/-- Dispatch of one event to the handler it reaches. Guards mirror which
elements exist in the rendered tree: the modal's controls only exist
while it is open (src/index.tsx:76 returns null otherwise), the file
input only in image mode, the reset button only in edit mode
(src/index.tsx:1066-1074). `readCompletes i` fires the `onloadend`
callback of the i-th in-flight read: `setValue(reader.result)`, with no
check of which edit session is current. -/
def handle (s : SystemState) : Event → SystemState
  | .toggleMode => { s with app := toggleEditMode s.app }
  | .clickText id d => { s with app := EditableText.handleClick s.app id d }
  | .clickImage id d => { s with app := EditableImage.handleClick s.app id d }
  | .typeScratch v =>
      if s.app.editingItem.isSome then { s with modal := { s.modal with value := v } } else s
  | .clickSave =>
      if s.app.editingItem.isSome then { s with app := handleSaveEdit s.app s.modal.value } else s
  | .clickCancel =>
      if s.app.editingItem.isSome then { s with app := closeEditor s.app } else s
  | .clickCloseX =>
      if s.app.editingItem.isSome then { s with app := closeEditor s.app } else s
  | .overlayClick => s
  | .pressEscape => s
  | .clickReset confirmed =>
      if s.app.isEditMode then { s with app := resetContent s.app confirmed } else s
  | .selectFile dataUri =>
      match s.app.editingItem with
      | some it =>
          if it.type = EditType.image then { s with pendingReads := s.pendingReads ++ [dataUri] }
          else s
      | none => s
  | .readCompletes i =>
      match s.pendingReads.get? i with
      | some dataUri =>
          { s with modal := { s.modal with value := dataUri },
                   pendingReads := s.pendingReads.eraseIdx i }
      | none => s

/-- The render-plus-effects pass React performs after a handler's state
updates: the modal receives the freshly computed props and its
`useEffect` runs against them. -/
def render (s : SystemState) : SystemState :=
  { s with modal := s.modal.sync (modalInitialValue s.app) s.app.editingItem.isSome }

/-- One full event step: run the handler, then rerender. -/
def step (s : SystemState) (e : Event) : SystemState :=
  render (handle s e)

/-- Run a list of events in order. -/
def runEvents (s : SystemState) (es : List Event) : SystemState :=
  es.foldl step s

/-- A sequence of scratch edits in the open dialog (textarea / URL input
`onChange`, src/index.tsx:100 and 110). -/
def typeMany (s : SystemState) (vs : List String) : SystemState :=
  vs.foldl (fun t v => step t (Event.typeScratch v)) s

/-- The state on page load: edit mode off, empty store, no ActiveEdit
(`useState(false)`, `useState({})`, `useState(null)`); the modal is
mounted closed with scratch `''` and its mount effect already run; no
file read in flight. -/
def initState : SystemState :=
  { app := { isEditMode := false, content := Content.empty, editingItem := none }
    modal := { value := "", lastInitialValue := "", lastIsOpen := false }
    pendingReads := [] }

/-- The modal's recorded effect dependencies agree with the props the
current app state renders. Every state produced by `step` satisfies this,
since a step ends with a render-and-effects pass. -/
abbrev Synced (s : SystemState) : Prop :=
  s.modal.lastInitialValue = modalInitialValue s.app ∧
  s.modal.lastIsOpen = s.app.editingItem.isSome

/-- Number of ActiveEdits in a state: `editingItem` is a single nullable
value, so this is 0 or 1 by construction. -/
def activeEditCount (s : SystemState) : Nat :=
  match s.app.editingItem with
  | some _ => 1
  | none => 0

/-- The operations that can mutate the Content Store over its lifetime:
the commit path's `set` and a confirmed reset. -/
inductive StoreOp where
  | set (k v : String)
  | resetAll

/-- Effect of one store operation. -/
def StoreOp.apply (c : Content) : StoreOp → Content
  | .set k v => c.set k v
  | .resetAll => Content.empty

/-- Whether an operation can affect key `k`: a `set` of that very key or
a full reset. -/
def StoreOp.touches (op : StoreOp) (k : String) : Bool :=
  match op with
  | .set q _ => q == k
  | .resetAll => true

/-- Apply a list of store operations in order. -/
def applyOps (c : Content) (ops : List StoreOp) : Content :=
  ops.foldl StoreOp.apply c

/-- A sample state outside edit mode with one override present. -/
def sampleRO : AppState :=
  { isEditMode := false
    content := Content.empty.set "hero_title" "New Title"
    editingItem := none }

/-- A sample state with an open image-editor session. -/
def sampleEditing : AppState :=
  { isEditMode := true
    content := Content.empty
    editingItem := some { id := "profile_img", value := "old", type := EditType.image } }

/-- A reachable state in edit mode with the dialog closed. -/
def sysEditModeOn : SystemState :=
  runEvents initState [Event.toggleMode]

/-- A reachable state with the text editor open on `hero_title`. -/
def sysOpenText : SystemState :=
  runEvents initState [Event.toggleMode, Event.clickText "hero_title" "T"]

/-- A reachable state with the image editor open on `profile_img`. -/
def sysOpenImage : SystemState :=
  runEvents initState [Event.toggleMode, Event.clickImage "profile_img" "P"]

/-- A trace that opens the editor on `k1` (default `A`), types `B` into the
scratch field without saving, then opens the editor on `k2` whose resolved
value is also `A`, while the first dialog is still open. -/
def leakTrace : SystemState :=
  runEvents initState
    [Event.toggleMode, Event.clickText "k1" "A", Event.typeScratch "B",
     Event.clickText "k2" "A"]

/-- A trace where a local-file read starts during the `k1` image session,
the dialog is closed before the read completes, a fresh session is opened
on `k2`, and only then does the read's `onloadend` callback fire. -/
def lateReadTrace : SystemState :=
  runEvents initState
    [Event.toggleMode, Event.clickImage "k1" "D1",
     Event.selectFile "data:image/png;base64,AAAA", Event.clickCancel,
     Event.clickImage "k2" "D2", Event.readCompletes 0]

/-! ## Helper lemmas -/

/-- Looking up the key just set. -/
theorem Content.set_same (c : Content) (k v : String) : (c.set k v) k = some v := by
  simp [Content.set]

/-- Setting one key leaves the lookup of any other key unchanged. -/
theorem Content.set_other (c : Content) (k v q : String) (h : q ≠ k) :
    (c.set k v) q = c q := by
  simp [Content.set, h]

/-- JS `v || ''` is just `v`. -/
theorem orElse_empty (v : String) : orElse v "" = v := by
  unfold orElse
  by_cases hv : v = ""
  · rw [if_pos hv, hv]
  · rw [if_neg hv]

/-- A sequence of store operations none of which touches `k` leaves the
lookup at `k` unchanged. -/
theorem applyOps_get (ops : List StoreOp) (k : String)
    (h : ∀ op ∈ ops, op.touches k = false) :
    ∀ c : Content, applyOps c ops k = c k := by
  induction ops with
  | nil => intro c; rfl
  | cons op rest ih =>
    intro c
    have hop := h op (List.mem_cons_self _ _)
    have hrest : ∀ o ∈ rest, StoreOp.touches o k = false :=
      fun o ho => h o (List.mem_cons_of_mem _ ho)
    cases op with
    | set q v =>
      have hq : q ≠ k := by
        intro hqk
        simp [StoreOp.touches, hqk] at hop
      have hstep : applyOps c (StoreOp.set q v :: rest) = applyOps (c.set q v) rest := rfl
      rw [hstep, ih hrest]
      exact Content.set_other c q v k (Ne.symm hq)
    | resetAll => simp [StoreOp.touches] at hop

/-- After an effects pass, the recorded dependency pair is the pair the
effect just saw. -/
theorem sync_last (m : ModalState) (a : String) (b : Bool) :
    (m.sync a b).lastInitialValue = a ∧ (m.sync a b).lastIsOpen = b := by
  unfold ModalState.sync
  by_cases h : a = m.lastInitialValue ∧ b = m.lastIsOpen
  · rw [if_pos h]; exact ⟨h.1.symm, h.2.symm⟩
  · rw [if_neg h]; exact ⟨rfl, rfl⟩

/-- When the dependency pair changed, the effect reseeds the scratch value. -/
theorem sync_value_of_changed (m : ModalState) (a : String) (b : Bool)
    (h : ¬(a = m.lastInitialValue ∧ b = m.lastIsOpen)) :
    (m.sync a b).value = a := by
  unfold ModalState.sync
  rw [if_neg h]

/-- A render pass leaves the App state alone. -/
theorem render_app (u : SystemState) : (render u).app = u.app := rfl

/-- Every rendered state is synced. -/
theorem synced_render (u : SystemState) : Synced (render u) :=
  sync_last u.modal (modalInitialValue u.app) u.app.editingItem.isSome

/-- Every state produced by a step is synced. -/
theorem synced_step (t : SystemState) (e : Event) : Synced (step t e) :=
  synced_render (handle t e)

/-- Typing in the scratch field never changes the App state. -/
theorem step_typeScratch_app (s : SystemState) (v : String) :
    (step s (Event.typeScratch v)).app = s.app := by
  by_cases h : s.app.editingItem.isSome <;> simp [step, handle, render, h]

/-- A whole sequence of scratch edits never changes the App state. -/
theorem typeMany_app (s : SystemState) (vs : List String) :
    (typeMany s vs).app = s.app := by
  induction vs generalizing s with
  | nil => rfl
  | cons v rest ih =>
    show (typeMany (step s (Event.typeScratch v)) rest).app = s.app
    rw [ih, step_typeScratch_app]

/-- The `onloadend` callback of a file read writes only the modal's scratch
value: the App state — store, ActiveEdit, edit-mode flag — is untouched. -/
theorem step_readCompletes_app (t : SystemState) (j : Nat) :
    (step t (Event.readCompletes j)).app = t.app := by
  simp only [step, handle]
  cases h : t.pendingReads.get? j <;> simp [h, render]

/-- Opening an editor from a closed dialog always reseeds the scratch value
to the clicked slot's resolved value: the `isOpen` dependency flips, so the
effect fires. -/
theorem open_from_closed_seeds (t : SystemState) (id dflt : String)
    (hs : Synced t) (hm : t.app.isEditMode = true) (hclosed : t.app.editingItem = none) :
    (step t (Event.clickText id dflt)).modal.value = resolve t.app.content id dflt ∧
    (step t (Event.clickImage id dflt)).modal.value = resolve t.app.content id dflt := by
  constructor <;>
  · simp only [step, handle, render, EditableText.handleClick, EditableImage.handleClick, hm,
      if_true, openEditor, modalInitialValue, Option.isSome_some, orElse_empty]
    apply sync_value_of_changed
    intro hc
    rw [hs.2, hclosed] at hc
    exact absurd hc.2 (by decide)

/-- Opening an editor while another is open reseeds the scratch value
whenever the new initial value differs from the open editor's initial
value (the `initialValue` dependency changes). -/
theorem open_while_open_seeds_if_changed (t : SystemState) (it : EditItem) (id dflt : String)
    (hs : Synced t) (hm : t.app.isEditMode = true) (hsome : t.app.editingItem = some it)
    (hne : resolve t.app.content id dflt ≠ it.value) :
    (step t (Event.clickText id dflt)).modal.value = resolve t.app.content id dflt ∧
    (step t (Event.clickImage id dflt)).modal.value = resolve t.app.content id dflt := by
  have hinit : modalInitialValue t.app = it.value := by
    simp [modalInitialValue, hsome, orElse_empty]
  constructor <;>
  · simp only [step, handle, render, EditableText.handleClick, EditableImage.handleClick, hm,
      if_true, openEditor, modalInitialValue, Option.isSome_some, orElse_empty]
    apply sync_value_of_changed
    intro hc
    rw [hs.1, hinit] at hc
    exact hne hc.1

/-! ## Claim theorems -/

/-- C1 counterexample: `set(k, "")` stores the empty string in the map, yet
`get(k)` does not return it — `content[id] || defaultText` treats the empty
string as falsy and yields the default instead, so the claim fails for the
empty string whenever the default is nonempty. -/
theorem set_empty_string_get_returns_default :
    (Content.empty.set "hero_title" "") "hero_title" = some "" ∧
    resolve (Content.empty.set "hero_title" "") "hero_title" "Premium Tower" ≠ "" ∧
    resolve (Content.empty.set "hero_title" "") "hero_title" "Premium Tower" = "Premium Tower" := by
  refine ⟨?_, ?_, ?_⟩ <;> decide

/-- C1 (amended): for every key `k` and every nonempty value `v`, after
`set(k, v)`, `get(k)` returns exactly `v`, and continues to do so across any
further store operations until the next `set(k, *)` or a full reset; `set`
itself performs no validation, but `get`'s fallback `content[id] ||
defaultText` treats an empty-string override as absent and returns the
default. -/
theorem set_then_get_nonempty (c : Content) (k v dflt : String) (ops : List StoreOp)
    (hv : v ≠ "")
    (hops : ∀ op ∈ ops, op.touches k = false) :
    resolve (applyOps (c.set k v) ops) k dflt = v := by
  have hlook : applyOps (c.set k v) ops k = some v := by
    rw [applyOps_get ops k hops]
    exact Content.set_same c k v
  simp [resolve, hlook, orElse, hv]

/-- Witness for C1 (amended) at a concrete nonempty value surviving an
unrelated set. -/
theorem set_then_get_nonempty_witness :
    (("New Title" : String) ≠ "" ∧
      (StoreOp.set "other_key" "x").touches "hero_title" = false) ∧
    resolve (applyOps (Content.empty.set "hero_title" "New Title")
        [StoreOp.set "other_key" "x"]) "hero_title" "Default Title" = "New Title" :=
  ⟨⟨by decide, by decide⟩,
   set_then_get_nonempty Content.empty "hero_title" "New Title" "Default Title"
     [StoreOp.set "other_key" "x"] (by decide) (by decide)⟩

/-- C5: with an ActiveEdit on key `k`, `handleSaveEdit(value)` stores the
value verbatim under `k` (no other key is touched) and clears the
ActiveEdit, so no dialog remains open. -/
theorem commit_stores_verbatim_and_clears (a : AppState) (it : EditItem) (v : String)
    (h : a.editingItem = some it) :
    (handleSaveEdit a v).content it.id = some v ∧
    (handleSaveEdit a v).editingItem = none ∧
    ∀ k, k ≠ it.id → (handleSaveEdit a v).content k = a.content k := by
  unfold handleSaveEdit
  rw [h]
  exact ⟨Content.set_same a.content it.id v, rfl,
    fun k hk => Content.set_other a.content it.id v k hk⟩

/-- Witness for C5: saving the malformed reference `"not-a-url"` from an
open image session succeeds and stores the literal string. -/
theorem commit_stores_verbatim_and_clears_witness :
    (sampleEditing.editingItem =
        some { id := "profile_img", value := "old", type := EditType.image }) ∧
    ((handleSaveEdit sampleEditing "not-a-url").content "profile_img" = some "not-a-url" ∧
     (handleSaveEdit sampleEditing "not-a-url").editingItem = none ∧
     (handleSaveEdit sampleEditing "not-a-url").content "hero_img"
       = sampleEditing.content "hero_img") :=
  ⟨rfl,
   (commit_stores_verbatim_and_clears sampleEditing _ "not-a-url" rfl).1,
   (commit_stores_verbatim_and_clears sampleEditing _ "not-a-url" rfl).2.1,
   (commit_stores_verbatim_and_clears sampleEditing _ "not-a-url" rfl).2.2 "hero_img" (by decide)⟩

/-- C6: a confirmed reset removes every override, so `get(k)` returns the
call-site default for every key; a declined confirmation leaves the whole
state exactly as it was, with no error state. -/
theorem resetAll_confirmation_gated (a : AppState) :
    (∀ k dflt, resolve (resetContent a true).content k dflt = dflt) ∧
    resetContent a false = a :=
  ⟨fun _ _ => rfl, rfl⟩

/-- C7: the ActiveEdit is a single nullable field, so at most one exists in
every state, reachable or not; the policy for opening a second editor is
replacement — `openEditor` installs the new ActiveEdit wholesale and leaves
the store untouched, so the superseded edit is dropped without saving — and
the at-most-one bound survives any sequence of events, however rapid. -/
theorem single_active_edit_replacement :
    (∀ (a : AppState) (id v : String) (t : EditType),
        (openEditor a id v t).editingItem = some { id := id, value := v, type := t } ∧
        (openEditor a id v t).content = a.content) ∧
    ∀ (s : SystemState) (es : List Event), activeEditCount (runEvents s es) ≤ 1 := by
  constructor
  · intro a id v t
    exact ⟨rfl, rfl⟩
  · intro s es
    cases h : (runEvents s es).app.editingItem <;> simp [activeEditCount, h]

/-- C8: for a key with no override, the resolved value `content[id] ||
defaultText` is exactly the default supplied at the call site; the same
expression is used by text slots (src/index.tsx:177) and image slots
(src/index.tsx:213). -/
theorem get_returns_default_without_override (c : Content) (k dflt : String)
    (h : c k = none) : resolve c k dflt = dflt := by
  simp [resolve, h]

/-- Witness for C8 on the empty store. -/
theorem get_returns_default_without_override_witness :
    Content.empty "hero_title" = none ∧
    resolve Content.empty "hero_title" "Premium Residence" = "Premium Residence" :=
  ⟨rfl, get_returns_default_without_override Content.empty "hero_title" "Premium Residence" rfl⟩

/-- C10: invoking the save path with no ActiveEdit is a complete no-op —
`handleSaveEdit` returns the state unchanged, so no override is created and
the session still has no ActiveEdit. -/
theorem commit_without_active_edit_noop (a : AppState) (v : String)
    (h : a.editingItem = none) : handleSaveEdit a v = a := by
  unfold handleSaveEdit
  rw [h]

/-- Witness for C10 at a concrete state with no ActiveEdit. -/
theorem commit_without_active_edit_noop_witness :
    sampleRO.editingItem = none ∧ handleSaveEdit sampleRO "anything" = sampleRO :=
  ⟨rfl, commit_without_active_edit_noop sampleRO "anything" rfl⟩

/-- C2 counterexample: `openEditor` contains no edit-mode check — called on
a state with `isEditMode = false`, it still installs an ActiveEdit, so the
function itself is not a no-op guard. -/
theorem openEditor_ignores_edit_mode :
    sampleRO.isEditMode = false ∧
    (openEditor sampleRO "hero_title" "v" EditType.text).editingItem =
      some { id := "hero_title", value := "v", type := EditType.text } :=
  ⟨rfl, rfl⟩

/-- C2 (amended): the no-op-outside-edit-mode guard lives in the click
handlers, not in `openEditor`: when edit mode is off, `EditableText`'s and
`EditableImage`'s `handleClick` return early and leave the state, in
particular the absent ActiveEdit, unchanged; `openEditor` itself installs
an ActiveEdit unconditionally whenever it is invoked. -/
theorem click_targets_noop_outside_edit_mode (a : AppState) (id dflt : String)
    (h : a.isEditMode = false) :
    EditableText.handleClick a id dflt = a ∧ EditableImage.handleClick a id dflt = a := by
  constructor <;> simp [EditableText.handleClick, EditableImage.handleClick, h]

/-- Witness for C2 (amended) at a concrete read-only state. -/
theorem click_targets_noop_outside_edit_mode_witness :
    sampleRO.isEditMode = false ∧
    (EditableText.handleClick sampleRO "hero_title" "d" = sampleRO ∧
     EditableImage.handleClick sampleRO "hero_title" "d" = sampleRO) :=
  ⟨rfl, click_targets_noop_outside_edit_mode sampleRO "hero_title" "d" rfl⟩

/-- C3 counterexample: the modal's backdrop has no click handler and no
escape-key listener is registered, so an outside dismissal attempt does not
behave like Cancel: it leaves the ActiveEdit in place (the dialog stays
open), whereas Cancel clears it. -/
theorem overlay_click_does_not_dismiss :
    (step sysOpenText Event.overlayClick).app.editingItem =
      some { id := "hero_title", value := "T", type := EditType.text } ∧
    (step sysOpenText Event.clickCancel).app.editingItem = none := by
  constructor <;> decide

/-- C3 (amended): on every open dialog and after any sequence of scratch
edits, the Cancel button and the header X button behave identically — both
run `onClose`, clearing the ActiveEdit and leaving every key of the Content
Store unchanged. No outside-dismissal path is wired: an overlay click or an
escape press reaches no handler, leaving the whole state (in particular the
store, which is thus still never mutated) unchanged and the dialog open. -/
theorem cancel_closeX_discard_without_store_mutation (s : SystemState) (it : EditItem)
    (vs : List String) (h : s.app.editingItem = some it) :
    step (typeMany s vs) Event.clickCancel = step (typeMany s vs) Event.clickCloseX ∧
    (step (typeMany s vs) Event.clickCancel).app.editingItem = none ∧
    (∀ k, (step (typeMany s vs) Event.clickCancel).app.content k = s.app.content k) ∧
    step (typeMany s vs) Event.overlayClick = render (typeMany s vs) ∧
    step (typeMany s vs) Event.pressEscape = render (typeMany s vs) := by
  have happ := typeMany_app s vs
  have hopen : (typeMany s vs).app.editingItem = some it := by rw [happ, h]
  refine ⟨rfl, ?_, ?_, rfl, rfl⟩
  · simp [step, handle, render, hopen, closeEditor]
  · intro k
    simp [step, handle, render, hopen, closeEditor, happ, h]

/-- Witness for C3 (amended) on a reachable open dialog after two scratch
edits, with the store frame checked at a concrete key. -/
theorem cancel_closeX_discard_without_store_mutation_witness :
    (sysOpenImage.app.editingItem =
        some { id := "profile_img", value := "P", type := EditType.image }) ∧
    (step (typeMany sysOpenImage ["x", "y"]) Event.clickCancel
        = step (typeMany sysOpenImage ["x", "y"]) Event.clickCloseX ∧
     (step (typeMany sysOpenImage ["x", "y"]) Event.clickCancel).app.editingItem = none ∧
     (step (typeMany sysOpenImage ["x", "y"]) Event.clickCancel).app.content "profile_img"
        = sysOpenImage.app.content "profile_img") :=
  ⟨by decide,
   (cancel_closeX_discard_without_store_mutation sysOpenImage
     { id := "profile_img", value := "P", type := EditType.image } ["x", "y"] (by decide)).1,
   (cancel_closeX_discard_without_store_mutation sysOpenImage
     { id := "profile_img", value := "P", type := EditType.image } ["x", "y"] (by decide)).2.1,
   (cancel_closeX_discard_without_store_mutation sysOpenImage
     { id := "profile_img", value := "P", type := EditType.image } ["x", "y"]
     (by decide)).2.2.1 "profile_img"⟩

/-- C4 counterexample: with the editor open on `k1` (initial value `A`) and
`B` typed into the scratch field, opening the editor on `k2` whose resolved
value is also `A` leaves the scratch at `B` — the reseeding effect does not
fire because its dependency pair `[initialValue, isOpen]` is unchanged — so
uncommitted input from the previous key leaks into the new dialog. -/
theorem stale_scratch_leaks_on_equal_initial_value :
    leakTrace.app.editingItem = some { id := "k2", value := "A", type := EditType.text } ∧
    resolve leakTrace.app.content "k2" "A" = "A" ∧
    leakTrace.modal.value = "B" := by
  refine ⟨?_, ?_, ?_⟩ <;> decide

/-- C4 (amended): opening the editor for key `k` from a closed dialog always
seeds the scratch value to `k`'s resolved value (override if present, else
default); opening a second editor while one is already open reseeds whenever
the new key's resolved value differs from the open editor's initial value —
only when the two coincide does the effect skip and stale scratch input
survive. -/
theorem scratch_seeding_on_open (s : SystemState) (id dflt : String)
    (hs : Synced s) (hm : s.app.isEditMode = true) :
    (s.app.editingItem = none →
        (step s (Event.clickText id dflt)).modal.value = resolve s.app.content id dflt ∧
        (step s (Event.clickImage id dflt)).modal.value = resolve s.app.content id dflt) ∧
    ∀ it, s.app.editingItem = some it → resolve s.app.content id dflt ≠ it.value →
        (step s (Event.clickText id dflt)).modal.value = resolve s.app.content id dflt ∧
        (step s (Event.clickImage id dflt)).modal.value = resolve s.app.content id dflt :=
  ⟨fun hclosed => open_from_closed_seeds s id dflt hs hm hclosed,
   fun it hsome hne => open_while_open_seeds_if_changed s it id dflt hs hm hsome hne⟩

/-- Witness for C4 (amended): opening from a closed dialog in a reachable
state seeds the scratch to the resolved value. -/
theorem scratch_seeding_on_open_witness :
    (Synced sysEditModeOn ∧ sysEditModeOn.app.isEditMode = true ∧
      sysEditModeOn.app.editingItem = none) ∧
    (step sysEditModeOn (Event.clickText "hero_title" "D")).modal.value
      = resolve sysEditModeOn.app.content "hero_title" "D" :=
  ⟨⟨by decide, by decide, by decide⟩,
   ((scratch_seeding_on_open sysEditModeOn "hero_title" "D" (by decide) (by decide)).1
     (by decide)).1⟩

/-- C9 counterexample: a file read started during the `k1` image session
completes after that session was closed and a `k2` session opened; the
`onloadend` callback runs `setValue(reader.result)` with no session guard,
so the `k2` session's scratch value observes the file data of the
superseded session. -/
theorem late_file_read_writes_into_new_session :
    lateReadTrace.app.editingItem =
      some { id := "k2", value := "D2", type := EditType.image } ∧
    lateReadTrace.modal.value = "data:image/png;base64,AAAA" ∧
    lateReadTrace.modal.value ≠ "D2" := by
  refine ⟨?_, ?_, ?_⟩ <;> decide

/-- C9 (amended): the late-arriving `onloadend` callback never mutates the
Content Store or the ActiveEdit — it only writes the dialog's scratch value;
and if the dialog is closed when the read completes, the result is
effectively discarded, because the next editor opened from the closed dialog
reseeds the scratch to its own resolved value. There is, however, no session
guard, so a session already open when the read completes does observe the
result. -/
theorem late_file_read_never_touches_store (s : SystemState) (i : Nat) (id dflt : String)
    (hm : s.app.isEditMode = true) (hclosed : s.app.editingItem = none) :
    (∀ (t : SystemState) (j : Nat), (step t (Event.readCompletes j)).app = t.app) ∧
    (step (step s (Event.readCompletes i)) (Event.clickText id dflt)).modal.value
      = resolve s.app.content id dflt := by
  refine ⟨step_readCompletes_app, ?_⟩
  have happ := step_readCompletes_app s i
  have h1 := (open_from_closed_seeds (step s (Event.readCompletes i)) id dflt
      (synced_step s (Event.readCompletes i))
      (by rw [happ]; exact hm) (by rw [happ]; exact hclosed)).1
  rw [happ] at h1
  exact h1

/-- Witness for C9 (amended) at a reachable closed-dialog state. -/
theorem late_file_read_never_touches_store_witness :
    (sysEditModeOn.app.isEditMode = true ∧ sysEditModeOn.app.editingItem = none) ∧
    (step (step sysEditModeOn (Event.readCompletes 0))
        (Event.clickText "hero_img" "H")).modal.value
      = resolve sysEditModeOn.app.content "hero_img" "H" :=
  ⟨⟨by decide, by decide⟩,
   (late_file_read_never_touches_store sysEditModeOn 0 "hero_img" "H"
     (by decide) (by decide)).2⟩

end HomePage
